import Mathlib

/-!
Shallow embedding of the one-dimensional analytical hydrodynamic backend
(`Reef1D` in `src/core/hydrodynamics/reef_1d.py`) and of the relevant part of
the hydrodynamic capability contract
(`src/core/hydrodynamics/hydrodynamic_protocol.py`).

Modelling conventions:
* NumPy floating-point values are modelled as rationals `ℚ`; every finite IEEE
  double is a rational number, so concrete float values embed exactly.  Float
  rounding is not modelled.  A NumPy entry that is not a finite number (the
  `0/0 → NaN` produced inside `group_celerity`) is modelled as `none` in
  `Option ℚ`.
* A raised Python exception is modelled as `Except.error`; a Python method that
  returns `None` (as several properties of `Reef1D` do when their inputs are
  unset) is modelled as an `Option` value inside `Except.ok`/the plain result.
* The transcendental functions `numpy.tanh`, `numpy.sinh`, `numpy.pi` and the
  numerical root finder `scipy.optimize.fsolve` are not computable over `ℚ`;
  they enter the embedding as an explicit parameter record `FloatOps`.
  Theorems that depend on an actual property of these functions state that
  property as a hypothesis (for example `ops.sinh 0 = 0`, which holds for the
  real hyperbolic sine).
* Python object state is passed explicitly: a method that in Python mutates
  nothing returns the unchanged state, translated from a method body that
  contains no assignment to `self` or to its arguments.
-/

namespace NBSDynamics

/-- Python-level errors that the embedded methods can raise.
`notImplementedError` is Python's built-in `NotImplementedError`;
`invalidStateError` is the invalid-lifecycle-state error that the
specification postulates (no such error exists in the source, but the
constructor is needed to state the corresponding claims). -/
inductive PyErr where
  | notImplementedError : PyErr
  | invalidStateError : PyErr
deriving DecidableEq

/-- Parameter record for the floating-point library functions used by
`Reef1D`: `numpy.pi`, `numpy.sinh`, `numpy.tanh` and the result of
`scipy.optimize.fsolve` applied to `Reef1D.dispersion`.
`fsolve T h` stands for the wave length returned by
`fsolve(Reef1D.dispersion, 9.81 * T ** 2, args=(T, h, 9.81))`:
the solver is deterministic, so its outcome is a function of the wave
period `T` and the depth `h` alone. -/
structure FloatOps where
  pi : ℚ
  sinh : ℚ → ℚ
  tanh : ℚ → ℚ
  fsolve : ℚ → ℚ → ℚ

/-- The state of a `Reef1D` instance: the class attributes of
`Reef1D` in `reef_1d.py`, all optional and defaulting to absent,
exactly as in the source (`working_dir`, `definition_file` and
`config_file` are path-valued and irrelevant to the numerics; they are
kept as opaque strings for completeness). -/
structure Reef1D where
  working_dir : Option String := none
  definition_file : Option String := none
  config_file : Option String := none
  water_depth : Option (List ℚ) := none
  can_dia : Option ℚ := none
  can_height : Option ℚ := none
  can_den : Option ℚ := none
  bath : Option (List ℚ) := none
  Hs : Option ℚ := none
  Tp : Option ℚ := none
  dx : Option ℚ := none

/-- `Reef1D.space`: `len(self.bath)`, `None` when `bath` is unset. -/
def space (m : Reef1D) : Option ℕ :=
  m.bath.map List.length

/-- `Reef1D.water_level`: the property returns the constant `0`. -/
def water_level (_m : Reef1D) : ℚ := 0

/-- `Reef1D.per_wav`: returns `self.Tp`. -/
def per_wav (m : Reef1D) : Option ℚ :=
  m.Tp

/-- `Reef1D.depth`: `self.bath + self.water_level`, element-wise; accessing it
with `bath` unset raises in Python (`None + 0`), modelled as `none`. -/
def depth (m : Reef1D) : Option (List ℚ) :=
  m.bath.map (fun b => b.map (fun h => h + water_level m))

/-- `numpy.arange(start, stop, step)` for a positive `step`: the values
`start + i * step` for `0 ≤ i < ⌈(stop - start) / step⌉` (this ceiling is
exactly the length NumPy allocates). -/
def arange (start stop step : ℚ) : List ℚ :=
  (List.range (⌈(stop - start) / step⌉).toNat).map
    (fun i : ℕ => start + (i : ℚ) * step)

/-- `Reef1D.x_coordinates`: `None` when `space` or `dx` is unset, otherwise
`numpy.arange(0, self.space, self.dx)`. -/
def x_coordinates (m : Reef1D) : Option (List ℚ) :=
  match space m, m.dx with
  | some s, some d => some (arange 0 (s : ℚ) d)
  | _, _ => none

/-- `Reef1D.y_coordinates`: the constant singleton array `[0]`. -/
def y_coordinates (_m : Reef1D) : List ℚ :=
  [0]

/-- `Reef1D.xy_coordinates`: `None` when `x_coordinates` is `None`, otherwise
the list of pairs `(x_coordinates[i], y_coordinates[0])` for
`i in range(len(x_coordinates))`. -/
def xy_coordinates (m : Reef1D) : Option (List (ℚ × ℚ)) :=
  (x_coordinates m).map (fun xs =>
    (List.range xs.length).map (fun i => (xs.getD i 0, (y_coordinates m).getD 0 0)))

/-- `Reef1D.vel_wave`: the constant `0`. -/
def vel_wave (_m : Reef1D) : ℚ := 0

/-- `Reef1D.vel_curr_mn`: the constant `0`. -/
def vel_curr_mn (_m : Reef1D) : ℚ := 0

/-- `Reef1D.vel_curr_mx`: the constant `0`. -/
def vel_curr_mx (_m : Reef1D) : ℚ := 0

/-- `Reef1D.dispersion`: the residual of the linear-wave dispersion relation,
`wave_length - ((grav_acc * wave_period ** 2) / (2 * pi)) * tanh(2 * pi * depth / wave_length)`. -/
def dispersion (ops : FloatOps) (wave_length wave_period dep grav_acc : ℚ) : ℚ :=
  wave_length - ((grav_acc * wave_period ^ 2) / (2 * ops.pi)) *
    ops.tanh (2 * ops.pi * dep / wave_length)

/-- `Reef1D.wave_length`: an array of `len(self.depth)` zeros in which every
entry whose depth is strictly positive is replaced by the root returned by
`fsolve` for that depth; entries with depth `≤ 0` keep the value `0` and the
solver is never invoked for them.  Accessing the property with `Tp` or `bath`
unset raises in Python, modelled as `none`. -/
def wave_length (ops : FloatOps) (m : Reef1D) : Option (List ℚ) :=
  match per_wav m, depth m with
  | some T, some d => some (d.map (fun h => if 0 < h then ops.fsolve T h else 0))
  | _, _ => none

/-- `Reef1D.wave_frequency`: `2 * pi / self.per_wav`. -/
def wave_frequency (ops : FloatOps) (m : Reef1D) : Option ℚ :=
  (per_wav m).map (fun T => 2 * ops.pi / T)

/-- `Reef1D.wave_number`: an array of zeros in which every entry whose wave
length is strictly positive is replaced by `2 * pi / wave_length`. -/
def wave_number (ops : FloatOps) (m : Reef1D) : Option (List ℚ) :=
  (wave_length ops m).map (fun Ls =>
    Ls.map (fun L => if 0 < L then 2 * ops.pi / L else 0))

/-- `Reef1D.wave_celerity`: `self.wave_length / self.per_wav`, element-wise. -/
def wave_celerity (ops : FloatOps) (m : Reef1D) : Option (List ℚ) :=
  match wave_length ops m, per_wav m with
  | some Ls, some T => some (Ls.map (fun L => L / T))
  | _, _ => none

/-- `Reef1D.group_celerity`:
`n = 0.5 * (1 + (2 * k * depth) / sinh(k * depth))` followed by
`n * wave_celerity`, element-wise.  When `sinh(k * depth) = 0` — for the real
hyperbolic sine this happens exactly when `k * depth = 0`, so the numerator
`2 * k * depth` is `0` as well — NumPy evaluates `0 / 0` to `NaN` (raising no
exception), and `NaN` times the finite celerity stays `NaN`; that non-finite
entry is modelled as `none`. -/
def group_celerity (ops : FloatOps) (m : Reef1D) : Option (List (Option ℚ)) :=
  match wave_number ops m, depth m, wave_celerity ops m with
  | some ks, some ds, some cs =>
      some ((List.range ds.length).map (fun i =>
        let k := ks.getD i 0
        let h := ds.getD i 0
        let c := cs.getD i 0
        let s := ops.sinh (k * h)
        if s = 0 then none
        else some ((1 / 2) * (1 + (2 * k * h) / s) * c)))
  | _, _, _ => none

/-- `Reef1D.initiate`: the body is `raise NotImplementedError`; no attribute is
assigned, so the state is returned unchanged alongside the error. -/
def initiate (m : Reef1D) : Except PyErr Unit × Reef1D :=
  (Except.error PyErr.notImplementedError, m)

/-- `Reef1D.finalise`: the body is `raise NotImplementedError`; no attribute is
assigned, so the state is returned unchanged alongside the error. -/
def finalise (m : Reef1D) : Except PyErr Unit × Reef1D :=
  (Except.error PyErr.notImplementedError, m)

/-- Outcome of a call to `Reef1D.update`: the returned tuple (or the raised
error), together with the post-call model state and the post-call coral
argument.  The coral argument is duck-typed in Python, hence the type
parameter `γ`.  The returned tuple is a list of `None` placeholders, so its
Lean image is a list of `none` values whose length is the tuple arity. -/
structure UpdateOut (γ : Type) where
  result : Except PyErr (List (Option ℚ))
  model : Reef1D
  coral : γ

/-- `Reef1D.update(coral, storm=False)`: returns `(None, None)` when `storm`
is truthy and `(None, None, None)` otherwise.  The body reads no attribute and
assigns nothing, so model state and coral argument are returned unchanged. -/
def update {γ : Type} (m : Reef1D) (coral : γ) (storm : Bool) : UpdateOut γ :=
  { result := Except.ok (if storm then [none, none] else [none, none, none])
    model := m
    coral := coral }

/-- Attribute access `instance.water_depth` on `Reef1D`.  In the source,
`water_depth` is a plain optional-valued field (`water_depth:
Optional[np.ndarray] = None`), so the access simply returns the stored value —
it never raises, in contrast with the `HydrodynamicProtocol.water_depth`
property, whose default body is `raise NotImplementedError`. -/
def water_depth_access (m : Reef1D) : Except PyErr (Option (List ℚ)) :=
  Except.ok m.water_depth

/-- Attribute access `instance.water_depth` through the protocol default
(`HydrodynamicProtocol.water_depth` in `hydrodynamic_protocol.py`), for a
backend that does not override it: `raise NotImplementedError`. -/
def protocol_water_depth_access (_m : Reef1D) : Except PyErr (Option (List ℚ)) :=
  Except.error PyErr.notImplementedError

/-- Concrete stand-in interpretation of the floating-point library functions,
used for concrete evaluations.  Its `sinh` agrees with the real hyperbolic
sine at `0` (the only point at which any theorem below constrains `sinh`),
its `pi` is a rational approximation of `π`, and its `fsolve` returns the
constant `100` (the solver result is opaque to every claim). -/
def demoOps : FloatOps :=
  { pi := 314159 / 100000
    sinh := fun x => x
    tanh := fun x => x
    fsolve := fun _ _ => 100 }

/-- A configured model whose single node is dry: `bath = [-1]`, `Hs = 1.5`,
`Tp = 8 > 0`, `dx = 1`. -/
def reefDry : Reef1D :=
  { bath := some [-1], Hs := some (3 / 2), Tp := some 8, dx := some 1 }

/-- A configured model whose single node is wet: `bath = [5]`, `Tp = 8 > 0`,
`dx = 1`. -/
def reefWet : Reef1D :=
  { bath := some [5], Hs := some (3 / 2), Tp := some 8, dx := some 1 }

/-- A configured model with five nodes and spacing `dx = 10`:
`bath = [1, 1, 1, 1, 1]`, `Tp = 8`, `dx = 10`. -/
def reefFive : Reef1D :=
  { bath := some [1, 1, 1, 1, 1], Hs := some (3 / 2), Tp := some 8, dx := some 10 }

/-- A freshly constructed model: every attribute keeps its class-level default
(`None`). -/
def reefDefault : Reef1D := {}

/-! Helper lemmas about indexing mapped lists. -/

theorem getD_map_of_lt {α β : Type} (f : α → β) (l : List α) (i : ℕ)
    (hi : i < l.length) (d : β) (e : α) :
    (l.map f).getD i d = f (l.getD i e) := by
  induction l generalizing i with
  | nil => simp at hi
  | cons a t ih =>
      cases i with
      | zero => rfl
      | succ j =>
          have hj : j < t.length := by simpa using hi
          simpa using ih j hj

theorem getD_range_map {β : Type} (g : ℕ → β) (n i : ℕ) (hi : i < n) (d : β) :
    ((List.range n).map g).getD i d = g i := by
  rw [getD_map_of_lt g (List.range n) i (by simpa using hi) d 0]
  congr 1
  rw [List.getD_eq_getElem (List.range n) 0 (by simpa using hi)]
  simp

/-!
C1.  The claim states that at every node with `depth[i] ≤ 0` the wave field
has `wave_length[i] = 0`, `wave_number[i] = 0` and `group_celerity[i] = 0`
with no exception and no NaN or Inf anywhere.  The first two parts hold, and
no exception is raised; but `group_celerity` evaluates
`(2 * k * depth) / sinh(k * depth)` at such a node with `k = 0`, which is
`0 / 0` and yields NaN in NumPy, so `group_celerity[i]` is NaN, not `0`.
-/

/-- C1 counterexample: on the configured model `reefDry`
(`bath = [-1]`, `Tp = 8 > 0`) the single node is dry; `wave_length` and
`wave_number` are `[0]` as claimed, but `group_celerity` is `[NaN]`
(`none` encodes the NaN produced by `0 / 0`), not `[0]`, so the resulting
arrays do contain a NaN and the claim as stated is false. -/
theorem C1_counterexample :
    wave_length demoOps reefDry = some [0] ∧
    wave_number demoOps reefDry = some [0] ∧
    group_celerity demoOps reefDry = some [none] := by
  refine ⟨?_, ?_, ?_⟩ <;>
    norm_num [group_celerity, wave_number, wave_celerity, wave_length, per_wav,
      depth, water_level, reefDry, demoOps, List.range_succ]

/-- C1 amended: for every configured model (bathymetry set, `Tp > 0`) and
every node `i` with `depth[i] ≤ 0`, accessing the wave-field properties
raises no exception and yields `wave_length[i] = 0` and `wave_number[i] = 0`;
`group_celerity[i]`, however, is NaN (modelled as `none`), because the code
evaluates `0 / 0` at dry nodes.  The hypothesis `ops.sinh 0 = 0` records the
one property of the hyperbolic sine the computation depends on. -/
theorem C1_dry_node_amended (ops : FloatOps) (m : Reef1D) (b : List ℚ) (T : ℚ)
    (hsinh : ops.sinh 0 = 0) (hb : m.bath = some b) (hT : m.Tp = some T)
    (hTpos : 0 < T) (i : ℕ) (hi : i < b.length) (hdry : b.getD i 0 ≤ 0) :
    ∃ Ls ks gs,
      wave_length ops m = some Ls ∧ wave_number ops m = some ks ∧
      group_celerity ops m = some gs ∧
      Ls.getD i 1 = 0 ∧ ks.getD i 1 = 0 ∧ gs.getD i (some 1) = none := by
  have hdep : depth m = some b := by
    simp [depth, water_level, hb]
  have hL : wave_length ops m
      = some (b.map (fun h => if 0 < h then ops.fsolve T h else 0)) := by
    simp [wave_length, per_wav, hT, hdep]
  have hk : wave_number ops m
      = some ((b.map (fun h => if 0 < h then ops.fsolve T h else 0)).map
          (fun L => if 0 < L then 2 * ops.pi / L else 0)) := by
    simp [wave_number, hL]
  have hc : wave_celerity ops m
      = some ((b.map (fun h => if 0 < h then ops.fsolve T h else 0)).map
          (fun L => L / T)) := by
    simp [wave_celerity, hL, per_wav, hT]
  have hLi : ∀ e : ℚ,
      (b.map (fun h => if 0 < h then ops.fsolve T h else 0)).getD i e = 0 := by
    intro e
    rw [getD_map_of_lt _ b i hi e 0]
    exact if_neg (not_lt.mpr hdry)
  have hmaplen : (b.map (fun h => if 0 < h then ops.fsolve T h else 0)).length
      = b.length := by simp
  have hki : ∀ e : ℚ,
      ((b.map (fun h => if 0 < h then ops.fsolve T h else 0)).map
        (fun L => if 0 < L then 2 * ops.pi / L else 0)).getD i e = 0 := by
    intro e
    rw [getD_map_of_lt _ _ i (by simpa using hi) e 0, hLi 0]
    exact if_neg (lt_irrefl 0)
  refine ⟨_, _,
    (List.range b.length).map (fun j =>
      let k := ((b.map (fun h => if 0 < h then ops.fsolve T h else 0)).map
        (fun L => if 0 < L then 2 * ops.pi / L else 0)).getD j 0
      let h := b.getD j 0
      let c := ((b.map (fun hh => if 0 < hh then ops.fsolve T hh else 0)).map
        (fun L => L / T)).getD j 0
      let s := ops.sinh (k * h)
      if s = 0 then none else some (1 / 2 * (1 + 2 * k * h / s) * c)),
    hL, hk, ?_, hLi 1, hki 1, ?_⟩
  · simp only [group_celerity, hk, hdep, hc]
  · rw [getD_range_map _ b.length i hi (some 1)]
    simp only [hki 0, zero_mul, hsinh]
    simp

/-- C1 witness: the amended theorem applied to the concrete interpretation
`demoOps` and the concrete dry model `reefDry` at node `0`. -/
theorem C1_dry_node_amended_witness :
    demoOps.sinh 0 = 0 ∧ reefDry.bath = some [-1] ∧ reefDry.Tp = some 8 ∧
    (0 : ℚ) < 8 ∧ 0 < ([-1] : List ℚ).length ∧ ([-1] : List ℚ).getD 0 0 ≤ 0 ∧
    (∃ Ls ks gs,
      wave_length demoOps reefDry = some Ls ∧
      wave_number demoOps reefDry = some ks ∧
      group_celerity demoOps reefDry = some gs ∧
      Ls.getD 0 1 = 0 ∧ ks.getD 0 1 = 0 ∧ gs.getD 0 (some 1) = none) :=
  ⟨rfl, rfl, rfl, by norm_num, by norm_num, by norm_num,
    C1_dry_node_amended demoOps reefDry [-1] 8 rfl rfl rfl (by norm_num) 0
      (by norm_num) (by norm_num)⟩

/-!
C2.  The claim states that `update` called before `initiate` has succeeded,
or after `finalise`, fails with an InvalidStateError and never returns a
result.  The source `update` performs no lifecycle check at all: it returns
its tuple in every state.  (Moreover `initiate` itself always raises
`NotImplementedError`, so no call can ever be "after a successful
initiate".)
-/

/-- C2 counterexample: on a freshly constructed model — on which `initiate`
has certainly not succeeded — `update` returns the 2-tuple `(None, None)`
instead of failing with an InvalidStateError; the same happens after a
`finalise` attempt. -/
theorem C2_counterexample :
    (update reefDefault () true).result = Except.ok [none, none] ∧
    (update (finalise reefDefault).2 () false).result
      = Except.ok [none, none, none] :=
  ⟨rfl, rfl⟩

/-- C2 amended: `update` performs no lifecycle check: in every model state —
including a freshly constructed one and the state left behind by a
`finalise` attempt — it returns its tuple successfully, and no
InvalidStateError is ever raised. -/
theorem C2_update_unchecked_lifecycle {γ : Type} (m : Reef1D) (c : γ)
    (storm : Bool) :
    (update m c storm).result
      = Except.ok (if storm then [none, none] else [none, none, none]) ∧
    (update (finalise m).2 c storm).result
      = Except.ok (if storm then [none, none] else [none, none, none]) :=
  ⟨rfl, rfl⟩

/-!
C3.  `update` returns `(None, None)` when the storm flag is set and
`(None, None, None)` otherwise; the arity of the returned tuple depends only
on the storm flag.
-/

/-- C3: for every model state and every coral argument, `update` returns a
tuple whose arity is `2` when the storm flag is set and `3` otherwise. -/
theorem C3_update_arity {γ : Type} (m : Reef1D) (c : γ) (storm : Bool) :
    ∃ r, (update m c storm).result = Except.ok r ∧
      r.length = if storm then 2 else 3 := by
  cases storm with
  | false => exact ⟨[none, none, none], rfl, rfl⟩
  | true => exact ⟨[none, none], rfl, rfl⟩

/-!
C4.  The claim states that `x_coordinates` has exactly one position per node
(length equal to `space`, last position `(space - 1) * dx`).  The source
returns `numpy.arange(0, self.space, self.dx)`, whose length is
`⌈space / dx⌉`, not `space`: the positions stop once they reach the node
count, not once every node has a coordinate.
-/

/-- C4 counterexample: `reefFive` has five nodes (`bath = [1, 1, 1, 1, 1]`,
so `space = 5`) and spacing `dx = 10 > 0`, yet `x_coordinates` is the
single-element array `[0]` — length `1`, not `5`, and the last position is
`0`, not `(5 - 1) * 10 = 40`. -/
theorem C4_counterexample :
    space reefFive = some 5 ∧ x_coordinates reefFive = some [0] ∧
    ((x_coordinates reefFive).getD []).length = 1 := by
  have h : ⌈(1 / 2 : ℚ)⌉ = 1 := by
    rw [Int.ceil_eq_iff]
    norm_num
  refine ⟨rfl, ?_, ?_⟩ <;>
    norm_num [x_coordinates, space, arange, reefFive, h, List.range_succ]

/-- C4 amended: for every configured model with `space ≥ 1` and `dx > 0`,
`x_coordinates` is `numpy.arange(0, space, dx)`: the evenly spaced positions
`0, dx, 2·dx, …` strictly below `space`.  Its length is `⌈space / dx⌉` — one
position per node only in the special case `dx = 1`, in which the length
equals `space`. -/
theorem C4_x_coordinates_arange (m : Reef1D) (b : List ℚ) (d : ℚ)
    (hb : m.bath = some b) (hd : m.dx = some d) (hlen : 1 ≤ b.length)
    (hdx : 0 < d) :
    x_coordinates m = some (arange 0 (b.length : ℚ) d) ∧
    (arange 0 (b.length : ℚ) d).length = (⌈(b.length : ℚ) / d⌉).toNat ∧
    (∀ i, i < (arange 0 (b.length : ℚ) d).length →
      (arange 0 (b.length : ℚ) d).getD i 0 = (i : ℚ) * d) ∧
    (d = 1 → (arange 0 (b.length : ℚ) d).length = b.length) := by
  refine ⟨?_, ?_, ?_, ?_⟩
  · simp [x_coordinates, space, hb, hd]
  · simp [arange]
  · intro i hi
    simp only [arange, List.length_map, List.length_range] at hi
    simp only [arange]
    rw [getD_range_map _ _ i hi 0]
    ring
  · intro hd1
    subst hd1
    simp [arange, Int.ceil_natCast]

/-- C4 witness: the amended theorem applied to the concrete model `reefFive`
(`bath = [1, 1, 1, 1, 1]`, `dx = 10`). -/
theorem C4_x_coordinates_arange_witness :
    reefFive.bath = some [1, 1, 1, 1, 1] ∧ reefFive.dx = some 10 ∧
    1 ≤ ([1, 1, 1, 1, 1] : List ℚ).length ∧ (0 : ℚ) < 10 ∧
    (x_coordinates reefFive
        = some (arange 0 (([1, 1, 1, 1, 1] : List ℚ).length : ℚ) 10) ∧
      (arange 0 (([1, 1, 1, 1, 1] : List ℚ).length : ℚ) 10).length
        = (⌈(([1, 1, 1, 1, 1] : List ℚ).length : ℚ) / 10⌉).toNat ∧
      (∀ i, i < (arange 0 (([1, 1, 1, 1, 1] : List ℚ).length : ℚ) 10).length →
        (arange 0 (([1, 1, 1, 1, 1] : List ℚ).length : ℚ) 10).getD i 0
          = (i : ℚ) * 10) ∧
      ((10 : ℚ) = 1 →
        (arange 0 (([1, 1, 1, 1, 1] : List ℚ).length : ℚ) 10).length
          = ([1, 1, 1, 1, 1] : List ℚ).length)) :=
  ⟨rfl, rfl, by norm_num, by norm_num,
    C4_x_coordinates_arange reefFive [1, 1, 1, 1, 1] 10 rfl rfl (by norm_num)
      (by norm_num)⟩

/-!
C5.  `wave_number` is an array of zeros in which the entries with strictly
positive wave length are overwritten by `2 * pi / wave_length`; hence
`wave_number[i] = 2π / wave_length[i]` wherever `wave_length[i] > 0` and
`wave_number[i] = 0` wherever `wave_length[i] = 0`.
-/

/-- C5: for every configured model (bathymetry set, `Tp > 0`), the wave-number
array exists, is index-aligned with the wave-length array, and satisfies
`wave_number[i] = 2 * pi / wave_length[i]` at every node with
`wave_length[i] > 0` and `wave_number[i] = 0` at every node with
`wave_length[i] = 0`. -/
theorem C5_wave_number_relation (ops : FloatOps) (m : Reef1D) (b : List ℚ)
    (T : ℚ) (hb : m.bath = some b) (hT : m.Tp = some T) (hTpos : 0 < T) :
    ∃ Ls ks,
      wave_length ops m = some Ls ∧ wave_number ops m = some ks ∧
      ks.length = Ls.length ∧
      ∀ i, i < Ls.length →
        (0 < Ls.getD i 0 → ks.getD i 0 = 2 * ops.pi / Ls.getD i 0) ∧
        (Ls.getD i 0 = 0 → ks.getD i 0 = 0) := by
  have hdep : depth m = some b := by
    simp [depth, water_level, hb]
  have hL : wave_length ops m
      = some (b.map (fun h => if 0 < h then ops.fsolve T h else 0)) := by
    simp [wave_length, per_wav, hT, hdep]
  refine ⟨b.map (fun h => if 0 < h then ops.fsolve T h else 0),
    (b.map (fun h => if 0 < h then ops.fsolve T h else 0)).map
      (fun L => if 0 < L then 2 * ops.pi / L else 0),
    hL, by simp [wave_number, hL], by simp, ?_⟩
  intro i hi
  have hilen : i < (b.map (fun h => if 0 < h then ops.fsolve T h else 0)).length := hi
  constructor
  · intro hpos
    rw [getD_map_of_lt _ _ i hilen 0 0]
    exact if_pos hpos
  · intro hzero
    rw [getD_map_of_lt _ _ i hilen 0 0, hzero]
    exact if_neg (lt_irrefl 0)

/-- C5 witness: the relation instantiated on the concrete interpretation
`demoOps` and the wet model `reefWet` (`bath = [5]`, `Tp = 8`). -/
theorem C5_wave_number_relation_witness :
    reefWet.bath = some [5] ∧ reefWet.Tp = some 8 ∧ (0 : ℚ) < 8 ∧
    (∃ Ls ks,
      wave_length demoOps reefWet = some Ls ∧
      wave_number demoOps reefWet = some ks ∧
      ks.length = Ls.length ∧
      ∀ i, i < Ls.length →
        (0 < Ls.getD i 0 → ks.getD i 0 = 2 * demoOps.pi / Ls.getD i 0) ∧
        (Ls.getD i 0 = 0 → ks.getD i 0 = 0)) :=
  ⟨rfl, rfl, by norm_num,
    C5_wave_number_relation demoOps reefWet [5] 8 rfl rfl (by norm_num)⟩

/-!
C6.  `y_coordinates` is the constant singleton `[0]`, and `xy_coordinates`
pairs `x_coordinates[i]` with `y_coordinates[0]` index for index.
-/

/-- C6: for every configured model, `y_coordinates` is the single-element
array `[0]` and `xy_coordinates[i] = (x_coordinates[i], y_coordinates[0])`
for every index `i` of `x_coordinates`. -/
theorem C6_xy_coordinates_pairing (m : Reef1D) (xs : List ℚ)
    (hx : x_coordinates m = some xs) :
    y_coordinates m = [0] ∧
    ∃ ps, xy_coordinates m = some ps ∧ ps.length = xs.length ∧
      ∀ i, i < xs.length →
        ps.getD i (0, 0) = (xs.getD i 0, (y_coordinates m).getD 0 0) := by
  refine ⟨rfl,
    (List.range xs.length).map
      (fun i => (xs.getD i 0, (y_coordinates m).getD 0 0)),
    by simp [xy_coordinates, hx], by simp, ?_⟩
  intro i hi
  rw [getD_range_map _ xs.length i hi (0, 0)]

/-- C6 witness: the pairing instantiated on the concrete model `reefWet`,
whose `x_coordinates` is `[0]`. -/
theorem C6_xy_coordinates_pairing_witness :
    x_coordinates reefWet = some [0] ∧
    (y_coordinates reefWet = [0] ∧
      ∃ ps, xy_coordinates reefWet = some ps ∧
        ps.length = ([0] : List ℚ).length ∧
        ∀ i, i < ([0] : List ℚ).length →
          ps.getD i (0, 0)
            = (([0] : List ℚ).getD i 0, (y_coordinates reefWet).getD 0 0)) := by
  have hx : x_coordinates reefWet = some [0] := by
    have h : ⌈(1 - 0 : ℚ) / 1⌉ = 1 := by
      rw [Int.ceil_eq_iff]
      norm_num
    norm_num [x_coordinates, space, arange, reefWet, h, List.range_succ]
  exact ⟨hx, C6_xy_coordinates_pairing reefWet [0] hx⟩

/-!
C7.  The claim states that accessing `water_depth` on the analytical backend
fails with NotImplementedError when its source data is unset and never
silently returns an absent value.  In the source, `Reef1D` overrides the
protocol property with a plain optional field defaulting to `None`, so the
access silently returns `None` when the field is unset; only the protocol
default (`HydrodynamicProtocol.water_depth`, for a backend that does not
override it) raises `NotImplementedError`.
-/

/-- C7 counterexample: on a freshly constructed `Reef1D`, whose
backend-specific source data is unset (`water_depth = None`), the attribute
access returns `None` successfully instead of failing with a
NotImplementedError — the silent absent value the claim rules out. -/
theorem C7_counterexample :
    reefDefault.water_depth = none ∧
    water_depth_access reefDefault = Except.ok none :=
  ⟨rfl, rfl⟩

/-- C7 amended: the `water_depth` access on `Reef1D` always returns the
stored field successfully — the stored sequence when it is set, and a silent
`None` when it is unset; only the protocol's default property raises
`NotImplementedError`. -/
theorem C7_water_depth_plain_field (m : Reef1D) :
    water_depth_access m = Except.ok m.water_depth ∧
    protocol_water_depth_access m = Except.error PyErr.notImplementedError :=
  ⟨rfl, rfl⟩

/-!
C8.  `update` mutates neither the coral argument nor any field of the model:
its Python body reads no attribute and assigns nothing, so the embedded
method returns both unchanged.
-/

/-- C8: for every model state, every coral argument (of any type) and every
storm flag, `update` leaves the whole model state — hence every field:
`bath`, `Hs`, `Tp`, `dx`, `water_depth`, canopy parameters — and the coral
argument exactly as they were before the call. -/
theorem C8_update_frame {γ : Type} (m : Reef1D) (c : γ) (storm : Bool) :
    (update m c storm).model = m ∧ (update m c storm).coral = c :=
  ⟨rfl, rfl⟩

/-!
C9.  `update` is deterministic: its outcome is a function of the model
state and the arguments alone, and a call leaves the state unchanged, so a
second call with the same arguments — made in the state the first call left
behind — produces the identical outcome.
-/

/-- C9: calling `update` a second time, on the model state and coral value
left behind by a first call with the same arguments, yields an outcome
identical to the first call's — there is no hidden counter or internal
state distinguishing the two calls. -/
theorem C9_update_deterministic {γ : Type} (m : Reef1D) (c : γ)
    (storm : Bool) :
    update (update m c storm).model (update m c storm).coral storm
      = update m c storm :=
  rfl

/-!
C10.  `initiate` and `finalise` consist of a bare `raise NotImplementedError`
with no preceding assignment: they raise unconditionally in every model
state, never succeed, and leave the state untouched.
-/

/-- C10: on every model state, configured or not, `initiate` and `finalise`
raise `NotImplementedError` and return the state unchanged, so neither
lifecycle transition can ever succeed. -/
theorem C10_lifecycle_not_implemented (m : Reef1D) :
    initiate m = (Except.error PyErr.notImplementedError, m) ∧
    finalise m = (Except.error PyErr.notImplementedError, m) :=
  ⟨rfl, rfl⟩

end NBSDynamics
